import Mathlib

/-!
Shallow embedding of `src/dashboard.py` (Seongsu short-stay foreigner
dashboard), a linear Streamlit script that

  1. filters an uploaded GeoJSON boundary table to tract codes whose first
     7 characters lie in `VALID_PREFIXES` (line 40),
  2. fetches population rows from the Seoul open-data API and filters them
     by the same prefix set (`fetch_data`, lines 45-60, cached by
     `st.cache_data(ttl=3600)`),
  3. joins each population row to the centroid of the matching boundary
     polygon and renders one of three overlays: circle markers, a heat
     layer, or a 24-frame animated heat layer (lines 91-134).

Modelling conventions.  Python exceptions become `Except PyError`;
pandas DataFrames become lists of records; the geometry library is a
black box, so each boundary record carries the centroid coordinates the
library would report (as rationals); the HTTP client is a pure function
from request parameters to a response.  The pandas subtleties that the
claims hinge on are modelled explicitly and are justified at the
definitions below: `pd.DataFrame([])` has no columns, so selecting the
`OA_CD` column of an empty frame raises `KeyError`; and `.iloc[0]` on an
empty selection raises `IndexError`.
-/

namespace SeongsuDashboard

/-- Errors the Python script can raise along the modelled paths:
`requests.HTTPError` from `resp.raise_for_status()`, pandas `KeyError`
on a missing column, `IndexError` from `.iloc[0]` on an empty selection,
and `ValueError` from `int()` on a non-numeric string. -/
inductive PyError where
  | httpError : PyError
  | keyError : String → PyError
  | indexError : PyError
  | valueError : PyError
deriving Repr, DecidableEq

/-- Line 20: `VALID_PREFIXES = {"1104065", "1104066", "1104067", "1104068"}`. -/
def VALID_PREFIXES : List String := ["1104065", "1104066", "1104067", "1104068"]

/-- One boundary record of the uploaded GeoJSON (a row of `gdf`): the
tract code `OA_CD` and its polygon geometry.  The geometry library is an
external collaborator, so the polygon is represented by the centroid
coordinates it would compute (`.centroid.y`, `.centroid.x`). -/
structure Boundary where
  OA_CD : String
  centroidY : ℚ
  centroidX : ℚ
deriving Repr, DecidableEq

/-- One population row of the API response (interface fields of §6 of the
spec; all values arrive as strings). -/
structure PopRow where
  STDR_DE_ID : String
  TMZON_PD_SE : String
  ADSTRD_CODE_SE : String
  OA_CD : String
  TOT_LVPOP_CO : String
  CHINA_STAYPOP_CO : String
  OTHER_STAYPOP_CO : String
deriving Repr, DecidableEq

/-- The JSON body of an API response, to the depth the script inspects:
`resp.json().get("TEMP_FOREIGNER", {}).get("row", [])`.  A missing
`envelope` models a JSON object without the `TEMP_FOREIGNER` key; a
missing `row` models an envelope object without the `row` key. -/
structure ApiEnvelope where
  row : Option (List PopRow)
deriving Repr, DecidableEq

/-- A JSON object that may or may not carry the `TEMP_FOREIGNER` key. -/
structure ApiBody where
  envelope : Option ApiEnvelope
deriving Repr, DecidableEq

/-- An HTTP response: status code plus parsed JSON body. -/
structure HttpResponse where
  status : Nat
  body : ApiBody
deriving Repr, DecidableEq

/-- The HTTP client as a pure map from `(date_str, hour_str)` to the
response of `GET .../TEMP_FOREIGNER/1/1000/{date_str}/{hour_str}/`. -/
def Net : Type := String → String → HttpResponse

/-- Line 55: `resp.raise_for_status()`.  The `requests` library raises
`HTTPError` exactly for status codes in [400, 600). -/
def raise_for_status (status : Nat) : Except PyError Unit :=
  if 400 ≤ status ∧ status < 600 then .error .httpError else .ok ()

/-- Line 56: `items = resp.json().get("TEMP_FOREIGNER", {}).get("row", [])`.
Both `.get` calls default (`{}` then `[]`), so a missing envelope or a
missing row collection yields the empty list. -/
def itemsOf (b : ApiBody) : List PopRow :=
  match b.envelope with
  | none => []
  | some e => e.row.getD []

/-- Lines 57-59: `df = pd.DataFrame(items)` followed by
`df = df[df["OA_CD"].str[:7].isin(VALID_PREFIXES)]`.
When `items` is empty, `pd.DataFrame([])` has no columns at all, so the
column access `df["OA_CD"]` raises `KeyError`; when `items` is
non-empty every row dict carries the `OA_CD` key, so the column exists
and the frame is filtered to rows whose first 7 characters of `OA_CD`
are in `VALID_PREFIXES` (`.str[:7]` is `String.take 7`). -/
def dfFilterByOaCd (items : List PopRow) : Except PyError (List PopRow) :=
  match items with
  | [] => .error (.keyError "OA_CD")
  | _ :: _ => .ok (items.filter fun r => decide (r.OA_CD.take 7 ∈ VALID_PREFIXES))

/-- Lines 45-60: `fetch_data(date_str, hour_str)` applied to the response
the HTTP client produced for that request (the `@st.cache_data`
decorator is modelled separately by `cachedFetch`). -/
def fetch_data (resp : HttpResponse) : Except PyError (List PopRow) := do
  raise_for_status resp.status
  dfFilterByOaCd (itemsOf resp.body)

/-- Line 40: `gdf = gdf[gdf["OA_CD"].str[:7].isin(VALID_PREFIXES)]`.
As on the fetch side, a boundary table with zero features has no
`OA_CD` column and the access raises `KeyError`; otherwise the rows are
filtered by the 7-character prefix. -/
def filterBoundaries (raw : List Boundary) : Except PyError (List Boundary) :=
  match raw with
  | [] => .error (.keyError "OA_CD")
  | _ :: _ => .ok (raw.filter fun b => decide (b.OA_CD.take 7 ∈ VALID_PREFIXES))

/-- Decimal accumulation over the remaining characters of a numeric
string: fails on the first non-digit. -/
def parseNatAux : List Char → Nat → Option Nat
  | [], acc => some acc
  | c :: cs, acc =>
    if c.isDigit then parseNatAux cs (acc * 10 + (c.toNat - 48)) else none

/-- Python `int(s)` on the strings of this API: an optional sign
followed by at least one decimal digit, raising `ValueError` otherwise. -/
def pyInt (s : String) : Except PyError Int :=
  match s.data with
  | [] => .error .valueError
  | '-' :: [] => .error .valueError
  | '-' :: cs =>
    match parseNatAux cs 0 with
    | some n => .ok (-(n : Int))
    | none => .error .valueError
  | '+' :: [] => .error .valueError
  | '+' :: cs =>
    match parseNatAux cs 0 with
    | some n => .ok (n : Int)
    | none => .error .valueError
  | cs =>
    match parseNatAux cs 0 with
    | some n => .ok (n : Int)
    | none => .error .valueError

/-- Python `f"{h:02d}"` for the hour values 0-23 the script uses. -/
def fmt2 (h : Nat) : String :=
  if h < 10 then "0" ++ toString h else toString h

/-- A Python list comprehension / accumulation loop over `Except`:
elements are produced left to right and the first raised error aborts
the whole traversal. -/
def mapExcept (f : α → Except PyError β) : List α → Except PyError (List β)
  | [] => .ok []
  | x :: xs => do
    let y ← f x
    let ys ← mapExcept f xs
    pure (y :: ys)

/-- Lines 93-94 / 109-110 / 122-123:
`gdf[gdf["OA_CD"] == row["OA_CD"]].geometry.centroid.iloc[0]`.
The boundary table is filtered to rows whose `OA_CD` equals the
population row tract code; `.iloc[0]` takes the first match and raises
`IndexError` when the selection is empty. -/
def centroidFor (gdf : List Boundary) (oa : String) : Except PyError (ℚ × ℚ) :=
  match gdf.filter (fun b => b.OA_CD == oa) with
  | [] => .error .indexError
  | b :: _ => .ok (b.centroidY, b.centroidX)

/-- Line 97: `radius=max(int(row["TOT_LVPOP_CO"]) / 50, 3)` with Python
true division. -/
def markerRadius (w : Int) : ℚ := max ((w : ℚ) / 50) 3

/-- One `folium.CircleMarker` of the points mode (lines 95-105):
location `[centroid.y, centroid.x]`, the radius expression, and the two
popup payloads. -/
structure CircleMarker where
  locY : ℚ
  locX : ℚ
  radius : ℚ
  popupOaCd : String
  popupTot : String
deriving Repr, DecidableEq

/-- Lines 92-105, one iteration of the points loop: the centroid lookup
runs first (line 94, may raise `IndexError`), then the
`int(row["TOT_LVPOP_CO"])` cast inside the marker construction. -/
def pointMarker (gdf : List Boundary) (r : PopRow) : Except PyError CircleMarker := do
  let c ← centroidFor gdf r.OA_CD
  let w ← pyInt r.TOT_LVPOP_CO
  pure { locY := c.1, locX := c.2, radius := markerRadius w,
         popupOaCd := r.OA_CD, popupTot := r.TOT_LVPOP_CO }

/-- The whole points loop over the fetched rows. -/
def pointsLayer (gdf : List Boundary) (df : List PopRow) : Except PyError (List CircleMarker) :=
  mapExcept (pointMarker gdf) df

/-- One `[lat, lon, weight]` element of a heat layer. -/
abbrev HeatTriple := ℚ × ℚ × Int

/-- Lines 109-111, one element of the `heat_data` comprehension:
centroid lookup (may raise `IndexError`), then the `int()` cast. -/
def heatTriple (gdf : List Boundary) (r : PopRow) : Except PyError HeatTriple := do
  let c ← centroidFor gdf r.OA_CD
  let w ← pyInt r.TOT_LVPOP_CO
  pure (c.1, c.2, w)

/-- Lines 108-113: the `heat_data` list comprehension of heatmap mode. -/
def heat_data (gdf : List Boundary) (df : List PopRow) : Except PyError (List HeatTriple) :=
  mapExcept (heatTriple gdf) df

/-- Lines 120-127, one element of the per-hour `layer` comprehension of
time-heatmap mode (textually duplicated from the heatmap comprehension
in the source, hence its own definition). -/
def timeTriple (gdf : List Boundary) (r : PopRow) : Except PyError HeatTriple := do
  let c ← centroidFor gdf r.OA_CD
  let w ← pyInt r.TOT_LVPOP_CO
  pure (c.1, c.2, w)

/-- Line 131: `index=[f"{h:02d}" for h in range(24)]`. -/
def heatIndex : List String := (List.range 24).map fmt2

/-- Lines 118-128, one iteration of the time-heatmap loop:
`df_h = fetch_data(date_str, f"{h:02d}")` followed by the layer
comprehension over `df_h`. -/
def timeLayer (gdf : List Boundary) (net : Net) (dateStr : String) (h : Nat) :
    Except PyError (List HeatTriple) := do
  let dfh ← fetch_data (net dateStr (fmt2 h))
  mapExcept (timeTriple gdf) dfh

/-- The three overlays the script can attach to the map.  The
time-heatmap variant records the `HeatMapWithTime` arguments the script
passes: the 24 layers, the `index` list, and `auto_play`. -/
inductive Overlay where
  | points : List CircleMarker → Overlay
  | heat : List HeatTriple → Overlay
  | timeHeat : List (List HeatTriple) → List String → Bool → Overlay
deriving Repr, DecidableEq

/-- The visualization selector of line 28; the three selectbox options
are the strings rendered as points / heatmap / time heatmap. -/
inductive VizType where
  | points : VizType
  | heatmap : VizType
  | timeHeatmap : VizType
deriving Repr, DecidableEq

/-- Lines 91-134: build the overlay for the selected mode.  In
time-heatmap mode the per-hour `fetch_data` calls are served through the
`st.cache_data` cache; within a single render the HTTP client is the
same pure function, so a cache hit returns exactly what a fresh call
would (the cache semantics themselves are modelled by `cachedFetch`).
`auto_play=False` and the index list come from lines 131-132. -/
def buildOverlay (gdf : List Boundary) (df : List PopRow) (net : Net)
    (dateStr : String) (viz : VizType) : Except PyError Overlay :=
  match viz with
  | .points => (pointsLayer gdf df).map Overlay.points
  | .heatmap => (heat_data gdf df).map Overlay.heat
  | .timeHeatmap =>
      (mapExcept (timeLayer gdf net dateStr) (List.range 24)).map
        (fun layers => Overlay.timeHeat layers heatIndex false)

/-- The map plus summary column the script renders on success: the
boundary outline layer (line 78, drawn from the filtered `gdf`), the
overlay, the record count `len(df)` (line 147) and the displayed table
(lines 148-153; the projection onto the seven interface columns is the
identity on `PopRow`). -/
structure RenderOutput where
  boundaryLayer : List Boundary
  overlay : Overlay
  recordCount : Nat
  table : List PopRow
deriving Repr, DecidableEq

/-- Outcome of one Streamlit script run: `halted` models
`st.warning(...)` followed by `st.stop()` (lines 35-36), `raised` an
uncaught Python exception aborting the render, `rendered` a completed
map plus summary. -/
inductive RenderResult where
  | halted : String → RenderResult
  | raised : PyError → RenderResult
  | rendered : RenderOutput → RenderResult
deriving Repr, DecidableEq

/-- The script body from line 33 on, as a function of the session inputs:
the uploaded boundary file (already parsed into records; `none` means no
file was supplied), the HTTP client, the selected date string, hour and
mode.  With no upload the script warns and stops before touching the
boundary table, the network, the map or the summary column. -/
def runApp : Option (List Boundary) → Net → String → Nat → VizType → RenderResult
  | none, _, _, _, _ => .halted "GeoJSON 파일을 업로드해주세요."
  | some raw, net, dateStr, hour, viz =>
    match filterBoundaries raw with
    | .error e => .raised e
    | .ok gdf =>
      match fetch_data (net dateStr (fmt2 hour)) with
      | .error e => .raised e
      | .ok df =>
        match buildOverlay gdf df net dateStr viz with
        | .error e => .raised e
        | .ok ov => .rendered ⟨gdf, ov, df.length, df⟩

/-- One entry of the `st.cache_data` store: key `(date_str, hour_str)`,
the cached return value, and the wall-clock second it was stored. -/
structure CacheEntry where
  key : String × String
  result : List PopRow
  storedAt : Nat
deriving Repr, DecidableEq

/-- The cache is consulted newest-entry-first. -/
def lookupCache (c : List CacheEntry) (k : String × String) : Option CacheEntry :=
  c.find? (fun e => e.key == k)

/-- `@st.cache_data(ttl=3600)` around `fetch_data`: on a hit whose entry
is younger than 3600 seconds the stored value is returned with no
network call; otherwise the body runs, a successful result is stored
with the current timestamp, and an exception is not cached.  The
returned boolean records whether a network request was issued. -/
def cachedFetch (net : Net) (c : List CacheEntry) (now : Nat) (d h : String) :
    Except PyError (List PopRow) × List CacheEntry × Bool :=
  match lookupCache c (d, h) with
  | some e =>
    if now < e.storedAt + 3600 then (.ok e.result, c, false)
    else
      match fetch_data (net d h) with
      | .ok rows => (.ok rows, ⟨(d, h), rows, now⟩ :: c, true)
      | .error err => (.error err, c, true)
  | none =>
    match fetch_data (net d h) with
    | .ok rows => (.ok rows, ⟨(d, h), rows, now⟩ :: c, true)
    | .error err => (.error err, c, true)

/-! ## Concrete fixtures used by witnesses and counterexamples -/

/-- A boundary record inside the allow-listed district. -/
def bndW : Boundary := { OA_CD := "1104065000001", centroidY := 37, centroidX := 127 }

/-- A population row whose tract matches `bndW`. -/
def rowW : PopRow :=
  { STDR_DE_ID := "20250905", TMZON_PD_SE := "14", ADSTRD_CODE_SE := "1104065",
    OA_CD := "1104065000001", TOT_LVPOP_CO := "120",
    CHINA_STAYPOP_CO := "30", OTHER_STAYPOP_CO := "90" }

/-- A population row with an allow-listed prefix but a tract code absent
from the boundary set `[bndW]`. -/
def rowMiss : PopRow :=
  { STDR_DE_ID := "20250905", TMZON_PD_SE := "14", ADSTRD_CODE_SE := "1104065",
    OA_CD := "1104065999999", TOT_LVPOP_CO := "77",
    CHINA_STAYPOP_CO := "30", OTHER_STAYPOP_CO := "47" }

/-- A successful API response carrying exactly `rowW`. -/
def respW : HttpResponse := { status := 200, body := { envelope := some { row := some [rowW] } } }

/-- An HTTP 500 response. -/
def resp500 : HttpResponse := { status := 500, body := { envelope := none } }

/-- A network on which every request succeeds with `respW`. -/
def netW : Net := fun _ _ => respW

/-- A network on which every request fails with HTTP 500. -/
def netFail : Net := fun _ _ => resp500

/-! ## Helper lemmas -/

theorem mapExcept_cons_ok {f : α → Except PyError β} {a : α} {l : List α} {ys : List β} :
    mapExcept f (a :: l) = .ok ys ↔
      ∃ y zs, f a = .ok y ∧ mapExcept f l = .ok zs ∧ ys = y :: zs := by
  constructor
  · intro h
    cases hfa : f a with
    | error e => simp [mapExcept, hfa, Bind.bind, Except.bind] at h
    | ok y =>
      cases hrest : mapExcept f l with
      | error e => simp [mapExcept, hfa, hrest, Bind.bind, Except.bind] at h
      | ok zs =>
        refine ⟨y, zs, rfl, rfl, ?_⟩
        simp [mapExcept, hfa, hrest, Bind.bind, Except.bind, Pure.pure, Except.pure] at h
        exact h.symm
  · rintro ⟨y, zs, h1, h2, h3⟩
    simp [mapExcept, h1, h2, Bind.bind, Except.bind, Pure.pure, Except.pure, h3]

theorem mapExcept_ok_length {f : α → Except PyError β} :
    ∀ {l : List α} {ys : List β}, mapExcept f l = .ok ys → ys.length = l.length := by
  intro l
  induction l with
  | nil => intro ys h; simp [mapExcept] at h; simp [← h]
  | cons a as ih =>
    intro ys h
    rcases mapExcept_cons_ok.mp h with ⟨y, zs, _, h2, h3⟩
    simp [h3, ih h2]

theorem mapExcept_ok_get {f : α → Except PyError β} :
    ∀ {l : List α} {ys : List β}, mapExcept f l = .ok ys →
      ∀ i (hi : i < l.length), ∃ y, f (l.get ⟨i, hi⟩) = .ok y ∧ ys.get? i = some y := by
  intro l
  induction l with
  | nil => intro ys _ i hi; exact absurd hi (by simp)
  | cons a as ih =>
    intro ys h i hi
    rcases mapExcept_cons_ok.mp h with ⟨y, zs, h1, h2, h3⟩
    subst h3
    cases i with
    | zero => exact ⟨y, h1, rfl⟩
    | succ j =>
      rcases ih h2 j (by simpa using hi) with ⟨z, hz1, hz2⟩
      exact ⟨z, hz1, by simpa using hz2⟩

theorem mapExcept_ok_mem {f : α → Except PyError β} {l : List α} {ys : List β}
    (h : mapExcept f l = .ok ys) : ∀ x ∈ l, ∃ y, f x = .ok y := by
  intro x hx
  rcases List.mem_iff_get.mp hx with ⟨⟨i, hi⟩, rfl⟩
  rcases mapExcept_ok_get h i hi with ⟨y, hy, _⟩
  exact ⟨y, hy⟩

theorem mapExcept_not_ok_of_mem {f : α → Except PyError β} {l : List α} {x : α} {e : PyError}
    (hx : x ∈ l) (hfx : f x = .error e) : ∃ e2, mapExcept f l = .error e2 := by
  cases h : mapExcept f l with
  | error e2 => exact ⟨e2, rfl⟩
  | ok ys =>
    rcases mapExcept_ok_mem h x hx with ⟨y, hy⟩
    rw [hfx] at hy
    cases hy

theorem except_map_ok {α β : Type} {f : α → β} {x : Except PyError α} {y : β}
    (h : Except.map f x = .ok y) : ∃ a, x = .ok a ∧ y = f a := by
  cases x with
  | error e => cases h
  | ok a =>
    refine ⟨a, rfl, ?_⟩
    injection h with h2
    exact h2.symm

theorem fetch_data_ok {resp : HttpResponse} {rows : List PopRow}
    (h : fetch_data resp = .ok rows) :
    dfFilterByOaCd (itemsOf resp.body) = .ok rows := by
  unfold fetch_data at h
  cases hrs : raise_for_status resp.status with
  | error e => rw [hrs] at h; simp [Bind.bind, Except.bind] at h
  | ok u => rw [hrs] at h; simpa [Bind.bind, Except.bind] using h

/-! ## Claims -/

/-- C1: the claim says a fetch whose JSON body lacks the `TEMP_FOREIGNER`
envelope key, or whose envelope lacks the `row` collection, returns an
empty record set rather than raising.  The code disagrees: the two
`.get` defaults do produce an empty `items` list, but then
`pd.DataFrame([])` has no columns and line 59 raises `KeyError`
on the `OA_CD` column.  This theorem evaluates the embedded
`fetch_data` at the two failing inputs (status 200, body `{}`; and
status 200, body `{"TEMP_FOREIGNER": {}}`). -/
theorem fetch_missing_envelope_raises :
    fetch_data { status := 200, body := { envelope := none } }
      = .error (.keyError "OA_CD") ∧
    fetch_data { status := 200, body := { envelope := some { row := none } } }
      = .error (.keyError "OA_CD") :=
  ⟨rfl, rfl⟩

/-- C2 counterexample: the claim says a population row with no matching
boundary record is dropped silently with no error raised.  At the
concrete input `gdf = [bndW]`, `df = [rowMiss]` (an allow-listed tract
code absent from the boundary set), both the points loop and the
heatmap comprehension instead raise `IndexError` from `.iloc[0]` on the
empty selection. -/
theorem unmatched_tract_errors_concretely :
    pointsLayer [bndW] [rowMiss] = .error .indexError ∧
    heat_data [bndW] [rowMiss] = .error .indexError :=
  ⟨rfl, rfl⟩

/-- C2 (amended): for every population row whose tract identifier has no
matching boundary record in the filtered set, no joined point is
emitted; instead the centroid lookup (`.iloc[0]` on an empty selection)
raises `IndexError` in the points, heatmap and time-heatmap paths,
aborting the render rather than dropping the record silently. -/
theorem unmatched_tract_raises (gdf : List Boundary) (r : PopRow)
    (h : gdf.filter (fun b => b.OA_CD == r.OA_CD) = []) :
    pointMarker gdf r = .error .indexError ∧
    heatTriple gdf r = .error .indexError ∧
    timeTriple gdf r = .error .indexError := by
  have hc : centroidFor gdf r.OA_CD = .error .indexError := by
    unfold centroidFor
    rw [h]
  refine ⟨?_, ?_, ?_⟩ <;>
    simp [pointMarker, heatTriple, timeTriple, hc, Bind.bind, Except.bind]

/-- C2 witness: the amended theorem applied at `gdf = [bndW]`,
`r = rowMiss`. -/
theorem unmatched_tract_raises_witness :
    pointMarker [bndW] rowMiss = .error .indexError ∧
    heatTriple [bndW] rowMiss = .error .indexError ∧
    timeTriple [bndW] rowMiss = .error .indexError :=
  unmatched_tract_raises [bndW] rowMiss rfl

/-- C3: every boundary record retained by the boundary filter and every
population row retained by the fetcher has the first 7 characters of
its `OA_CD` in `VALID_PREFIXES`; no record outside the allow-list
survives either filter. -/
theorem prefix_invariant :
    (∀ raw gdf, filterBoundaries raw = .ok gdf →
      ∀ b ∈ gdf, b.OA_CD.take 7 ∈ VALID_PREFIXES) ∧
    (∀ resp rows, fetch_data resp = .ok rows →
      ∀ r ∈ rows, r.OA_CD.take 7 ∈ VALID_PREFIXES) := by
  constructor
  · intro raw gdf h b hb
    unfold filterBoundaries at h
    cases raw with
    | nil => cases h
    | cons x xs =>
      rw [Except.ok.injEq] at h
      rw [← h] at hb
      have := List.mem_filter.mp hb
      exact of_decide_eq_true this.2
  · intro resp rows h r hr
    have h2 := fetch_data_ok h
    unfold dfFilterByOaCd at h2
    cases hitems : itemsOf resp.body with
    | nil => rw [hitems] at h2; cases h2
    | cons x xs =>
      rw [hitems] at h2
      rw [Except.ok.injEq] at h2
      rw [← h2] at hr
      have := List.mem_filter.mp hr
      exact of_decide_eq_true this.2

/-- C3 witness: the invariant applied to the concrete boundary set
`[bndW]` and the concrete response `respW`. -/
theorem prefix_invariant_witness :
    bndW.OA_CD.take 7 ∈ VALID_PREFIXES ∧ rowW.OA_CD.take 7 ∈ VALID_PREFIXES :=
  ⟨prefix_invariant.1 [bndW] [bndW] rfl bndW (by simp),
   prefix_invariant.2 respW [rowW] rfl rowW (by simp)⟩

/-- A second boundary record with the same tract code as `bndW` but a
different centroid, for exercising duplicate-match behavior. -/
def bndW2 : Boundary := { OA_CD := "1104065000001", centroidY := 38, centroidX := 128 }

/-- The marker the points loop builds for `rowW` over `[bndW]`. -/
def markerW : CircleMarker :=
  { locY := 37, locX := 127, radius := markerRadius 120,
    popupOaCd := "1104065000001", popupTot := "120" }

/-- C4: for a population row whose tract identifier matches a boundary
record in the filtered set, the emitted joined point carries the
centroid latitude/longitude of that tract polygon and weight
`int(TOT_LVPOP_CO)`, in the heatmap and time-heatmap comprehensions;
the points-mode marker is placed at the same centroid. -/
theorem join_uses_centroid_and_weight (gdf : List Boundary) (r : PopRow) (b : Boundary)
    (w : Int)
    (hb : gdf.filter (fun c => c.OA_CD == r.OA_CD) = [b])
    (hw : pyInt r.TOT_LVPOP_CO = .ok w) :
    heatTriple gdf r = .ok (b.centroidY, b.centroidX, w) ∧
    timeTriple gdf r = .ok (b.centroidY, b.centroidX, w) ∧
    pointMarker gdf r = .ok { locY := b.centroidY, locX := b.centroidX,
                              radius := markerRadius w,
                              popupOaCd := r.OA_CD, popupTot := r.TOT_LVPOP_CO } := by
  have hc : centroidFor gdf r.OA_CD = .ok (b.centroidY, b.centroidX) := by
    unfold centroidFor
    rw [hb]
  refine ⟨?_, ?_, ?_⟩ <;>
    simp [heatTriple, timeTriple, pointMarker, hc, hw,
          Bind.bind, Except.bind, Pure.pure, Except.pure]

/-- C4 witness: the join theorem applied at `gdf = [bndW]`, `r = rowW`,
whose tract matches and whose count string parses to 120. -/
theorem join_uses_centroid_and_weight_witness :
    heatTriple [bndW] rowW = .ok (bndW.centroidY, bndW.centroidX, 120) ∧
    timeTriple [bndW] rowW = .ok (bndW.centroidY, bndW.centroidX, 120) ∧
    pointMarker [bndW] rowW = .ok { locY := bndW.centroidY, locX := bndW.centroidX,
                                    radius := markerRadius 120,
                                    popupOaCd := rowW.OA_CD, popupTot := rowW.TOT_LVPOP_CO } :=
  join_uses_centroid_and_weight [bndW] rowW bndW 120 (by rfl) (by rfl)

/-- C5: in points mode each marker radius is `max(weight / 50, 3)` for
the row weight `int(TOT_LVPOP_CO)` (Python true division), this
function is monotonically non-decreasing in the weight, weight 0 gives
radius 3, and weight 500 gives radius 10. -/
theorem marker_radius_spec :
    (∀ gdf r m, pointMarker gdf r = .ok m →
      ∃ w, pyInt r.TOT_LVPOP_CO = .ok w ∧ m.radius = markerRadius w) ∧
    (∀ w : Int, markerRadius w = max ((w : ℚ) / 50) 3) ∧
    (∀ w1 w2 : Int, w1 ≤ w2 → markerRadius w1 ≤ markerRadius w2) ∧
    markerRadius 0 = 3 ∧ markerRadius 500 = 10 := by
  refine ⟨?_, fun w => rfl, ?_, by norm_num [markerRadius], by norm_num [markerRadius]⟩
  · intro gdf r m h
    cases hc : centroidFor gdf r.OA_CD with
    | error e => simp [pointMarker, hc, Bind.bind, Except.bind] at h
    | ok c =>
      cases hw : pyInt r.TOT_LVPOP_CO with
      | error e => simp [pointMarker, hc, hw, Bind.bind, Except.bind] at h
      | ok w =>
        refine ⟨w, rfl, ?_⟩
        simp [pointMarker, hc, hw, Bind.bind, Except.bind, Pure.pure, Except.pure] at h
        rw [← h]
  · intro w1 w2 hle
    unfold markerRadius
    have h50 : (0 : ℚ) < 50 := by norm_num
    exact max_le_max ((div_le_div_iff_of_pos_right h50).mpr (by exact_mod_cast hle)) le_rfl

/-- C5 witness: the radius specification applied to the concrete marker
built for `rowW` over `[bndW]` and to the concrete weights 0 and 500. -/
theorem marker_radius_spec_witness :
    (∃ w, pyInt rowW.TOT_LVPOP_CO = .ok w ∧ markerW.radius = markerRadius w) ∧
    markerRadius 0 ≤ markerRadius 500 :=
  ⟨marker_radius_spec.1 [bndW] rowW markerW (by rfl),
   marker_radius_spec.2.2.1 0 500 (by norm_num)⟩

/-- C10: when several retained boundary records share the population
row's tract identifier, all three visualization paths use the centroid
of the first matching boundary record in boundary-set order
(`.iloc[0]` of the filtered selection). -/
theorem join_takes_first_match (gdf : List Boundary) (r : PopRow) (b : Boundary)
    (rest : List Boundary) (w : Int)
    (hb : gdf.filter (fun c => c.OA_CD == r.OA_CD) = b :: rest)
    (hw : pyInt r.TOT_LVPOP_CO = .ok w) :
    heatTriple gdf r = .ok (b.centroidY, b.centroidX, w) ∧
    timeTriple gdf r = .ok (b.centroidY, b.centroidX, w) ∧
    pointMarker gdf r = .ok { locY := b.centroidY, locX := b.centroidX,
                              radius := markerRadius w,
                              popupOaCd := r.OA_CD, popupTot := r.TOT_LVPOP_CO } := by
  have hc : centroidFor gdf r.OA_CD = .ok (b.centroidY, b.centroidX) := by
    unfold centroidFor
    rw [hb]
  refine ⟨?_, ?_, ?_⟩ <;>
    simp [heatTriple, timeTriple, pointMarker, hc, hw,
          Bind.bind, Except.bind, Pure.pure, Except.pure]

/-- C10 witness: over the boundary set `[bndW, bndW2]`, where both
records carry the tract code of `rowW`, the joined point uses the
centroid of `bndW` (the first match), not that of `bndW2`. -/
theorem join_takes_first_match_witness :
    heatTriple [bndW, bndW2] rowW = .ok (bndW.centroidY, bndW.centroidX, 120) ∧
    timeTriple [bndW, bndW2] rowW = .ok (bndW.centroidY, bndW.centroidX, 120) ∧
    pointMarker [bndW, bndW2] rowW = .ok { locY := bndW.centroidY, locX := bndW.centroidX,
                                           radius := markerRadius 120,
                                           popupOaCd := rowW.OA_CD,
                                           popupTot := rowW.TOT_LVPOP_CO } :=
  join_takes_first_match [bndW, bndW2] rowW bndW [bndW2] 120 (by rfl) (by rfl)

/-- The overlay the time-heatmap build produces over `[bndW]` with every
hourly fetch answering `respW`. -/
def timeHeatW : Overlay :=
  Overlay.timeHeat (List.replicate 24 [((37 : ℚ), (127 : ℚ), (120 : Int))]) heatIndex false

/-- The cache state after a first miss-fetch of `("20250905", "14")`
against `netW` at time 0. -/
def cacheW : List CacheEntry :=
  [{ key := ("20250905", "14"), result := [rowW], storedAt := 0 }]

/-- C6: in time-heatmap mode the builder produces exactly 24 density
layers, one per hour 0-23, with `index` equal to the two-digit strings
"00" through "23" in strictly ascending order, each layer built from
that hour's independently fetched and joined dataset, and
`auto_play = False`. -/
theorem time_heatmap_layers (gdf : List Boundary) (df : List PopRow) (net : Net)
    (dateStr : String) (ov : Overlay)
    (h : buildOverlay gdf df net dateStr .timeHeatmap = .ok ov) :
    ∃ layers, ov = .timeHeat layers heatIndex false ∧
      layers.length = 24 ∧
      heatIndex = ["00", "01", "02", "03", "04", "05", "06", "07", "08", "09", "10",
                   "11", "12", "13", "14", "15", "16", "17", "18", "19", "20", "21",
                   "22", "23"] ∧
      List.Chain' (fun a b => a < b) heatIndex ∧
      ∀ hr, hr < 24 → ∃ rows layer,
        fetch_data (net dateStr (fmt2 hr)) = .ok rows ∧
        mapExcept (timeTriple gdf) rows = .ok layer ∧
        layers.get? hr = some layer := by
  unfold buildOverlay at h
  rcases except_map_ok h with ⟨layers, hm, hov⟩
  refine ⟨layers, hov, ?_, rfl, ?_, ?_⟩
  · rw [mapExcept_ok_length hm, List.length_range]
  · have hh : heatIndex = ["00", "01", "02", "03", "04", "05", "06", "07", "08", "09",
        "10", "11", "12", "13", "14", "15", "16", "17", "18", "19", "20", "21",
        "22", "23"] := rfl
    rw [hh]
    simp only [List.chain'_cons, List.chain'_singleton, and_true]
    repeat' apply And.intro
    all_goals exact String.lt_iff_toList_lt.mpr (by decide)
  · intro hr hhr
    have hlen : hr < (List.range 24).length := by simpa using hhr
    rcases mapExcept_ok_get hm hr hlen with ⟨layer, hy, hget⟩
    have hrange : (List.range 24).get ⟨hr, hlen⟩ = hr := by simp
    rw [hrange] at hy
    unfold timeLayer at hy
    cases hfd : fetch_data (net dateStr (fmt2 hr)) with
    | error e => rw [hfd] at hy; simp [Bind.bind, Except.bind] at hy
    | ok rows =>
      rw [hfd] at hy
      simp only [Bind.bind, Except.bind] at hy
      exact ⟨rows, layer, rfl, hy, hget⟩

/-- C6 witness: the time-heatmap theorem applied to the concrete session
where every hourly request answers `respW` over the boundary set
`[bndW]`: the overlay is 24 copies of the single joined layer. -/
theorem time_heatmap_layers_witness :
    ∃ layers, timeHeatW = .timeHeat layers heatIndex false ∧
      layers.length = 24 ∧
      heatIndex = ["00", "01", "02", "03", "04", "05", "06", "07", "08", "09", "10",
                   "11", "12", "13", "14", "15", "16", "17", "18", "19", "20", "21",
                   "22", "23"] ∧
      List.Chain' (fun a b => a < b) heatIndex ∧
      ∀ hr, hr < 24 → ∃ rows layer,
        fetch_data (netW "20250905" (fmt2 hr)) = .ok rows ∧
        mapExcept (timeTriple [bndW]) rows = .ok layer ∧
        layers.get? hr = some layer :=
  time_heatmap_layers [bndW] [rowW] netW "20250905" timeHeatW (by rfl)

/-- C7: a non-success HTTP status (the 4xx/5xx range that
`raise_for_status` rejects) makes `fetch_data` raise, and in the
24-frame animated mode a failing fetch on any single hour makes the
whole render abort with an uncaught exception: `runApp` yields
`.raised` and no map or layers are produced. -/
theorem http_failure_aborts :
    (∀ resp : HttpResponse, 400 ≤ resp.status → resp.status < 600 →
      fetch_data resp = .error .httpError) ∧
    (∀ (raw : List Boundary) (net : Net) (dateStr : String) (hour hf : Nat) (e : PyError),
      hf < 24 → fetch_data (net dateStr (fmt2 hf)) = .error e →
      ∃ e2, runApp (some raw) net dateStr hour .timeHeatmap = .raised e2) := by
  constructor
  · intro resp h1 h2
    unfold fetch_data raise_for_status
    rw [if_pos ⟨h1, h2⟩]
    simp [Bind.bind, Except.bind]
  · intro raw net dateStr hour hf e hhf hfe
    simp only [runApp]
    cases hfb : filterBoundaries raw with
    | error eb => exact ⟨eb, rfl⟩
    | ok gdf =>
      cases hft : fetch_data (net dateStr (fmt2 hour)) with
      | error e1 => exact ⟨e1, rfl⟩
      | ok df =>
        have hlayer : timeLayer gdf net dateStr hf = .error e := by
          unfold timeLayer
          rw [hfe]
          simp [Bind.bind, Except.bind]
        have hmem : hf ∈ List.range 24 := List.mem_range.mpr hhf
        rcases mapExcept_not_ok_of_mem hmem hlayer with ⟨e2, hmap⟩
        refine ⟨e2, ?_⟩
        simp only [buildOverlay, hmap, Except.map]

/-- C7 witness: the abort theorem applied to the HTTP 500 response and
to the network that answers every request with HTTP 500. -/
theorem http_failure_aborts_witness :
    fetch_data resp500 = .error .httpError ∧
    ∃ e2, runApp (some [bndW]) netFail "20250905" 14 .timeHeatmap = .raised e2 :=
  ⟨http_failure_aborts.1 resp500 (by norm_num [resp500]) (by norm_num [resp500]),
   http_failure_aborts.2 [bndW] netFail "20250905" 14 0 .httpError (by norm_num) (by rfl)⟩

/-- C8: with no boundary file uploaded the script warns and stops
immediately: the render result is `halted` with the visible warning
text, which carries no map, overlay or summary table, and the outcome
is independent of the HTTP client, so no fetch is issued in that
session turn. -/
theorem no_upload_halts :
    (∀ (net : Net) (dateStr : String) (hour : Nat) (viz : VizType),
      runApp none net dateStr hour viz = .halted "GeoJSON 파일을 업로드해주세요.") ∧
    (∀ (net1 net2 : Net) (dateStr : String) (hour : Nat) (viz : VizType),
      runApp none net1 dateStr hour viz = runApp none net2 dateStr hour viz) :=
  ⟨fun _ _ _ _ => rfl, fun _ _ _ _ _ => rfl⟩

/-- C9: a first fetch of `(date, hour)` that went to the network and
succeeded stores its result; a second call with the same key strictly
within the 3600-second window returns the identical record set, leaves
the cache unchanged and issues no network request. -/
theorem cache_idempotent (net : Net) (c : List CacheEntry) (t0 t1 : Nat)
    (d h : String) (r : List PopRow) (c1 : List CacheEntry)
    (hfirst : cachedFetch net c t0 d h = (.ok r, c1, true))
    (ht : t1 < t0 + 3600) :
    cachedFetch net c1 t1 d h = (.ok r, c1, false) := by
  have hc1 : c1 = ⟨(d, h), r, t0⟩ :: c := by
    unfold cachedFetch at hfirst
    split at hfirst
    · split at hfirst
      · simp at hfirst
      · split at hfirst
        · simp only [Prod.mk.injEq, Except.ok.injEq] at hfirst
          rw [← hfirst.1, ← hfirst.2.1]
        · simp at hfirst
    · split at hfirst
      · simp only [Prod.mk.injEq, Except.ok.injEq] at hfirst
        rw [← hfirst.1, ← hfirst.2.1]
      · simp at hfirst
  subst hc1
  unfold cachedFetch
  have hl2 : lookupCache (⟨(d, h), r, t0⟩ :: c) (d, h) = some ⟨(d, h), r, t0⟩ := by
    unfold lookupCache
    rw [List.find?_cons_of_pos _ (by simp)]
  rw [hl2]
  simp only []
  rw [if_pos (show t1 < t0 + 3600 from ht)]

/-- C9 witness: the idempotence theorem applied to the concrete session
that first fetches `("20250905", "14")` from `netW` at time 0 into the
empty cache and asks again at time 100. -/
theorem cache_idempotent_witness :
    cachedFetch netW cacheW 100 "20250905" "14" = (.ok [rowW], cacheW, false) :=
  cache_idempotent netW [] 0 100 "20250905" "14" [rowW] cacheW (by rfl) (by norm_num)

end SeongsuDashboard
